import Mathlib

/-!
Shallow embedding of the `backup` repository (Python) in Lean 4.

The repository orchestrates multi-phase backup jobs (download, archive,
upload, cleanup) driven by external tool invocations, with resumability
provided by a JSON checkpoint file managed by `CheckpointManager`
(src/backup_utils/checkpoint.py).  External effects (subprocess calls,
directory creation and removal) are modelled as an explicit event trace;
the success or failure of each external interaction is supplied by an
environment record, so every orchestrator becomes a pure function from
its configuration, its environment and the pre-existing checkpoint file
state to a result.
-/

namespace Backup

/-- A Python value stored in a checkpoint configuration dict
(the repository only stores strings and booleans there). -/
inductive PyVal where
  | str (s : String)
  | bool (b : Bool)
  deriving DecidableEq, Repr

/-- A Python dict of configuration entries, in insertion order. -/
abbrev Config := List (String × PyVal)

/-- Key lookup in a configuration dict (`cfg[key]` / `key in cfg`). -/
def Config.find? (c : Config) (k : String) : Option PyVal :=
  match c with
  | [] => none
  | (k', v) :: rest => if k' = k then some v else Config.find? rest k

/-- The keys compared by `CheckpointManager.validate_config`
(checkpoint.py lines 127-128). -/
def essential_keys : List String :=
  ["source_profile", "dest_profile", "source_bucket", "dest_bucket",
   "folder_to_backup", "dest_bucket_base_path"]

/-- Model of `CheckpointManager.validate_config` (checkpoint.py lines 122-133):
for each essential key present in both dicts, the values must be equal;
keys missing from either dict are not compared. -/
def validate_config (saved current : Config) : Bool :=
  essential_keys.all fun key =>
    match current.find? key, saved.find? key with
    | some cv, some sv => cv = sv
    | _, _ => true

/-- The `progress` sub-dict of the checkpoint data.  `extraction_complete`
is not part of the initial schema; `UnpackUtility` adds it dynamically,
which `Option` models (none = key absent). -/
structure Progress where
  download_complete : Bool := false
  downloaded_files : List String := []
  archive_complete : Bool := false
  archive_volumes : List String := []
  upload_complete : Bool := false
  uploaded_files : List String := []
  extraction_complete : Option Bool := none
  deriving DecidableEq, Repr

/-- A repository descriptor as used from the GitHub listing API
(`name`, `clone_url`, `fork` are the fields the code reads). -/
structure Repo where
  name : String
  clone_url : String
  fork : Bool
  deriving DecidableEq, Repr

/-- The `checkpoint_data` dict as built by `CheckpointManager` (checkpoint.py
lines 9-21).  `repositories` and `completed_repos` are dynamic keys
added only by `GitHubBackup`; `Option` models their absence. -/
structure CheckpointData where
  backup_id : Option String := none
  timestamp : Option String := none
  config : Config := []
  progress : Progress := {}
  repositories : Option (List Repo) := none
  completed_repos : Option (List String) := none
  deriving DecidableEq, Repr

/-- The state of the checkpoint file on disk: absent, present but not
valid JSON, or present with parseable content. -/
inductive FileState where
  | absent
  | corrupt
  | content (d : CheckpointData)
  deriving DecidableEq, Repr

/-- A `CheckpointManager` together with the file it manages.  All code
paths in the repository construct the manager with a non-empty
`checkpoint_file` path, so the path itself is not modelled, only the
file's state. -/
structure CMState where
  data : CheckpointData := {}
  file : FileState := .absent
  auto_save : Bool := true
  deriving DecidableEq, Repr

/-- Model of `CheckpointManager.load` (checkpoint.py lines 109-120): returns
False leaving the in-memory data untouched when the file is absent, and
also returns False (after printing an error) when the file is present
but unparsable; on success it replaces the in-memory data. -/
def cm_load (s : CMState) : Bool × CMState :=
  match s.file with
  | .content d => (true, { s with data := d })
  | _ => (false, s)

/-- Model of `CheckpointManager.save` (checkpoint.py lines 96-107): `ok` is
whether the filesystem write succeeds; on failure the method prints an
error and returns False, leaving the file unchanged. -/
def cm_save (ok : Bool) (s : CMState) : Bool × CMState :=
  if ok then (true, { s with file := .content s.data }) else (false, s)

/-- Model of `CheckpointManager.__init__` (checkpoint.py lines 6-24): start from
the default data and load the file if it exists (a corrupt file leaves
the defaults in place, since `load` swallows the parse error). -/
def cm_new (file : FileState) (auto : Bool) : CMState :=
  let base : CMState := { data := {}, file := file, auto_save := auto }
  match file with
  | .absent => base
  | _ => (cm_load base).2

/-- Model of `CheckpointManager.initialize` (checkpoint.py lines 26-47): replace
the data with a fresh record (all phases incomplete, dynamic keys
absent) and auto-save.  `bid`/`time` stand for the wall-clock values. -/
def init_checkpoint (cfg : Config) (bid time : String) (saveOk : Bool)
    (s : CMState) : CMState :=
  let s' := { s with data := { backup_id := some bid, timestamp := some time,
                               config := cfg, progress := {},
                               repositories := none, completed_repos := none } }
  if s'.auto_save then (cm_save saveOk s').2 else s'

/-- Model of `CheckpointManager.mark_download_complete` (checkpoint.py lines
49-56).  The file list is only overwritten when truthy (non-empty). -/
def mark_download_complete (files : List String) (saveOk : Bool)
    (s : CMState) : CMState :=
  let p := s.data.progress
  let p := { p with download_complete := true,
                    downloaded_files := if files ≠ [] then files else p.downloaded_files }
  let s' := { s with data := { s.data with progress := p } }
  if s'.auto_save then (cm_save saveOk s').2 else s'

/-- Model of `CheckpointManager.mark_archive_complete` (checkpoint.py lines 58-65). -/
def mark_archive_complete (files : List String) (saveOk : Bool)
    (s : CMState) : CMState :=
  let p := s.data.progress
  let p := { p with archive_complete := true,
                    archive_volumes := if files ≠ [] then files else p.archive_volumes }
  let s' := { s with data := { s.data with progress := p } }
  if s'.auto_save then (cm_save saveOk s').2 else s'

/-- Model of `CheckpointManager.mark_upload_complete` (checkpoint.py lines 67-74). -/
def mark_upload_complete (files : List String) (saveOk : Bool)
    (s : CMState) : CMState :=
  let p := s.data.progress
  let p := { p with upload_complete := true,
                    uploaded_files := if files ≠ [] then files else p.uploaded_files }
  let s' := { s with data := { s.data with progress := p } }
  if s'.auto_save then (cm_save saveOk s').2 else s'

/-- One mutating `CheckpointManager` operation, for reasoning about
operation sequences against a single checkpoint file.  `saveOk` is the
success of the filesystem write the operation performs (if any). -/
inductive COp where
  | opInit (cfg : Config) (bid time : String) (saveOk : Bool)
  | markDownload (files : List String) (saveOk : Bool)
  | markArchive (files : List String) (saveOk : Bool)
  | markUpload (files : List String) (saveOk : Bool)
  | opLoad
  | opSave (saveOk : Bool)
  deriving DecidableEq, Repr

/-- Apply one operation to a manager state. -/
def cm_apply (s : CMState) : COp → CMState
  | .opInit cfg bid time ok => init_checkpoint cfg bid time ok s
  | .markDownload files ok => mark_download_complete files ok s
  | .markArchive files ok => mark_archive_complete files ok s
  | .markUpload files ok => mark_upload_complete files ok s
  | .opLoad => (cm_load s).2
  | .opSave ok => (cm_save ok s).2

/-- Apply a sequence of operations, left to right. -/
def cm_run (s : CMState) : List COp → CMState
  | [] => s
  | op :: ops => cm_run (cm_apply s op) ops

/-! S3Backup (src/backup_utils/s3_backup.py) -/

/-- One side-effecting action of an orchestrator run: an external tool
invocation through `run_command` (the argv list), a directory creation,
or a recursive directory removal. -/
inductive Event where
  | cmd (argv : List String)
  | mkdirp (path : String)
  | rmtree (path : String)
  deriving DecidableEq, Repr

/-- Extract the external tool invocations from an event trace. -/
def cmds_of (events : List Event) : List (List String) :=
  events.filterMap fun e =>
    match e with
    | .cmd argv => some argv
    | _ => none

/-- Model of `check_profile_exists` (s3_backup.py lines 79-109): a blank profile
name is accepted without checking; otherwise the environment says
whether the named profile resolves. -/
def check_profile (present : Bool) (name : String) : Bool :=
  if name = "" then true else present

/-- Python `folder_to_backup.replace('/', '_')`. -/
def safe_name (s : String) : String :=
  ⟨s.data.map fun c => if c = '/' then '_' else c⟩

/-- Python `str.replace` on character lists: replace every
non-overlapping occurrence of `pattern` left to right.  `fuel` bounds
the recursion (each step consumes at least one character). -/
def py_replace_fuel (pattern repl : List Char) : Nat → List Char → List Char
  | 0, l => l
  | fuel + 1, l =>
    match l with
    | [] => []
    | c :: rest =>
      if pattern ≠ [] && pattern.isPrefixOf l then
        repl ++ py_replace_fuel pattern repl fuel (l.drop pattern.length)
      else c :: py_replace_fuel pattern repl fuel rest

/-- Python `s.replace(pattern, repl)`.  Every call site in the
repository uses a non-empty pattern, so the empty-pattern case (where
Python would interleave `repl` between all characters) is returned
unchanged. -/
def py_replace (s pattern repl : String) : String :=
  if pattern.data = [] then s
  else ⟨py_replace_fuel pattern.data repl.data s.data.length s.data⟩

/-- Python `s.endswith(suffix)`. -/
def py_endswith (s suffix : String) : Bool :=
  suffix.data.isSuffixOf s.data

/-- Python slicing `s[:-n]` for `n ≤ len(s)`. -/
def py_dropRight (s : String) (n : Nat) : String :=
  ⟨s.data.take (s.data.length - n)⟩

/-- The `S3Backup` object configuration (s3_backup.py lines 11-35),
after `__init__` has applied its defaults. -/
structure S3Backup where
  source_profile : String := ""
  dest_profile : String := ""
  source_bucket : String := ""
  dest_bucket : String := ""
  dest_bucket_base_path : String := ""
  base_local_path : String := ""
  destination_storage_class : String := "DEEP_ARCHIVE"
  resume : Bool := true
  deriving DecidableEq, Repr

/-- The environment an `S3Backup.perform_backup` run interacts with:
presence of tools and profiles, success of filesystem operations,
success of each external command, directory listings, the user's
answer to each confirmation prompt, the wall clock, and whether
checkpoint writes succeed. -/
structure S3Env where
  aws_cli_present : Bool := true
  source_profile_ok : Bool := true
  dest_profile_ok : Bool := true
  mk_staging_ok : Bool := true
  mk_archive_ok : Bool := true
  run_ok : List String → Bool := fun _ => true
  walk_files : List String := []
  glob_volumes : List String := []
  dir_dar_files : List String := []
  confirm_ok : String → Bool := fun _ => true
  now : String := ""
  save_ok : Bool := true

/-- The configuration dict stored into the checkpoint by
`S3Backup.perform_backup` (s3_backup.py lines 150-160). -/
def s3_config_dict (b : S3Backup) (folder : String)
    (use_delete cleanup : Bool) (volume_size : String) : Config :=
  [("source_profile", .str b.source_profile),
   ("dest_profile", .str b.dest_profile),
   ("source_bucket", .str b.source_bucket),
   ("dest_bucket", .str b.dest_bucket),
   ("folder_to_backup", .str folder),
   ("dest_bucket_base_path", .str b.dest_bucket_base_path),
   ("use_delete", .bool use_delete),
   ("cleanup", .bool cleanup),
   ("volume_size", .str volume_size)]

/-- Model of `get_staging_dir` (s3_backup.py lines 111-121). -/
def s3_staging_dir (b : S3Backup) (folder : String) : String :=
  let base := b.base_local_path ++ "/"
    ++ (if b.source_profile = "" then "default" else b.source_profile)
    ++ "/" ++ b.source_bucket
  if folder = "" then base else base ++ "/" ++ folder

/-- The `aws s3 sync` download command (s3_backup.py lines 225-229). -/
def s3_download_cmd (b : S3Backup) (src dst : String) (use_delete : Bool) :
    List String :=
  ["aws", "s3", "sync", src, dst]
    ++ (if b.source_profile ≠ "" then ["--profile", b.source_profile] else [])
    ++ (if use_delete then ["--delete"] else [])

/-- The `aws s3 sync` upload command (s3_backup.py lines 300-302). -/
def s3_upload_cmd (b : S3Backup) (src dst : String) : List String :=
  ["aws", "s3", "sync", src, dst, "--storage-class", b.destination_storage_class]
    ++ (if b.dest_profile ≠ "" then ["--profile", b.dest_profile] else [])

/-- The result of an `S3Backup.perform_backup` run: the return value,
the trace of side-effecting actions, and the final manager state. -/
structure S3Out where
  ok : Bool
  events : List Event
  cm : CMState
  deriving Repr

/-- Model of `S3Backup.perform_backup` (s3_backup.py lines 123-353).  The
checkpoint path resolution (lines 130-138) is not modelled: a path is
always available, and `file0` is the state of the file at that path.
The timestamp and the backup id generated by `initialize` are both the
current wall clock (`env.now`). -/
def s3_perform_backup (b : S3Backup) (folder : String)
    (use_delete cleanup confirm : Bool) (volume_size : String)
    (env : S3Env) (file0 : FileState) : S3Out :=
  let cm0 := cm_new file0 true
  -- lines 143-161: resume with the saved backup id, or initialize
  let resumed := b.resume && cm0.data.backup_id.isSome
  let timestamp := if resumed then cm0.data.backup_id.getD "" else env.now
  let cm1 := if resumed then cm0 else
    init_checkpoint (s3_config_dict b folder use_delete cleanup volume_size)
      env.now env.now env.save_ok cm0
  -- lines 167-175: source and destination paths
  let source_s3_path := "s3://" ++ b.source_bucket ++ "/"
    ++ (if folder ≠ "" then folder ++ "/" else "")
  let dest_s3_path := "s3://" ++ b.dest_bucket ++ "/" ++ b.dest_bucket_base_path
    ++ "/" ++ (if folder ≠ "" then folder ++ "/" else "") ++ timestamp ++ "/"
  let local_download_dir := s3_staging_dir b folder
  -- lines 180-188: pre-run checks
  if !env.aws_cli_present then ⟨false, [], cm1⟩
  else if !check_profile env.source_profile_ok b.source_profile then ⟨false, [], cm1⟩
  else if !check_profile env.dest_profile_ok b.dest_profile then ⟨false, [], cm1⟩
  else
  -- lines 204-216: step 1, create local staging directory
  if confirm && !env.confirm_ok "create local staging directory" then ⟨false, [], cm1⟩
  else
  let ev1 : List Event := [.mkdirp local_download_dir]
  if !env.mk_staging_ok then ⟨false, ev1, cm1⟩
  else
  -- lines 218-247: step 2, download from source S3 (`.error` aborts the
  -- whole run with the given output, `.ok` continues)
  let step2 : Except S3Out (List Event × CMState) :=
    if b.resume && cm1.data.progress.download_complete then .ok (ev1, cm1)
    else
      let dl := s3_download_cmd b source_s3_path local_download_dir use_delete
      if confirm && !env.confirm_ok "download data from source S3" then
        .error ⟨false, ev1, cm1⟩
      else if !env.run_ok dl then .error ⟨false, ev1 ++ [.cmd dl], cm1⟩
      else .ok (ev1 ++ [.cmd dl], mark_download_complete env.walk_files env.save_ok cm1)
  match step2 with
  | .error out => out
  | .ok (ev2, cm2) =>
  -- lines 249-291: step 3, create volumes with dar
  let folder_part := if safe_name folder ≠ "" then "_" ++ safe_name folder else ""
  let archive_dir := b.base_local_path ++ "/" ++ b.source_bucket ++ folder_part
    ++ "_" ++ timestamp
  let archive_nm := if folder ≠ "" then safe_name folder ++ "_" ++ timestamp
    else "bucket_" ++ timestamp
  let archive_base_name := archive_dir ++ "/" ++ archive_nm
  let dar_cmd : List String :=
    ["dar", "-w", "-s", volume_size, "-c", archive_base_name, "-R", local_download_dir]
  let step3 : Except S3Out (List Event × CMState) :=
    if b.resume && cm2.data.progress.archive_complete then .ok (ev2, cm2)
    else
      if !env.mk_archive_ok then .error ⟨false, ev2 ++ [.mkdirp archive_dir], cm2⟩
      else if confirm && !env.confirm_ok "create volumes with dar" then
        .error ⟨false, ev2 ++ [.mkdirp archive_dir], cm2⟩
      else if !env.run_ok dar_cmd then
        .error ⟨false, ev2 ++ [.mkdirp archive_dir, .cmd dar_cmd], cm2⟩
      else .ok (ev2 ++ [.mkdirp archive_dir, .cmd dar_cmd],
                mark_archive_complete env.glob_volumes env.save_ok cm2)
  match step3 with
  | .error out => out
  | .ok (ev3, cm3) =>
  -- lines 293-320: step 4, upload archives to destination S3
  let up_cmd := s3_upload_cmd b archive_dir dest_s3_path
  let step4 : Except S3Out (List Event × CMState) :=
    if b.resume && cm3.data.progress.upload_complete then .ok (ev3, cm3)
    else
      if confirm && !env.confirm_ok "upload archives to destination S3" then
        .error ⟨false, ev3, cm3⟩
      else if !env.run_ok up_cmd then .error ⟨false, ev3 ++ [.cmd up_cmd], cm3⟩
      else .ok (ev3 ++ [.cmd up_cmd], mark_upload_complete env.dir_dar_files env.save_ok cm3)
  match step4 with
  | .error out => out
  | .ok (ev4, cm4) =>
  -- lines 322-347: step 5, optional cleanup (declines and failures skip
  -- only the individual removal; failures are warnings)
  let ev5 :=
    if cleanup then
      let evA := if confirm && !env.confirm_ok "remove local staging directory"
        then ev4 else ev4 ++ [.rmtree local_download_dir]
      if confirm && !env.confirm_ok "remove local archive directory"
        then evA else evA ++ [.rmtree archive_dir]
    else ev4
  ⟨true, ev5, cm4⟩

/-! GitHubBackup (src/backup_utils/github_backup.py) -/

/-- The `GitHubBackup` object configuration (github_backup.py lines
12-44), after `__init__` has applied its defaults. -/
structure GHBackup where
  org_name : String := ""
  github_token : String := ""
  base_local_path : String := ""
  include_forks : Bool := false
  include_wikis : Bool := false
  include_lfs : Bool := false
  s3_profile : String := ""
  s3_bucket : String := ""
  s3_path : String := ""
  storage_class : String := "DEEP_ARCHIVE"
  resume : Bool := true
  deriving DecidableEq, Repr

/-- The environment a `GitHubBackup.perform_backup` run interacts with.
`already_cloned` models `os.path.exists(repo_dir/.git)` per repository
name; `fetch_result` is the GitHub API listing (`none` = request
error); `mkdir_ok`/`rm_ok` give per-path filesystem outcomes. -/
structure GHEnv where
  git_present : Bool := true
  dar_present : Bool := true
  aws_present : Bool := true
  s3_profile_ok : Bool := true
  fetch_result : Option (List Repo) := some []
  mkdir_ok : String → Bool := fun _ => true
  rm_ok : String → Bool := fun _ => true
  already_cloned : String → Bool := fun _ => false
  run_ok : List String → Bool := fun _ => true
  confirm_ok : String → Bool := fun _ => true
  now : String := ""
  save_ok : Bool := true

/-- The configuration dict stored into the checkpoint by
`GitHubBackup.perform_backup` (github_backup.py lines 282-294). -/
def gh_config_dict (b : GHBackup)
    (create_archives upload_flag cleanup : Bool) (volume_size : String) : Config :=
  [("org_name", .str b.org_name),
   ("include_forks", .bool b.include_forks),
   ("include_wikis", .bool b.include_wikis),
   ("include_lfs", .bool b.include_lfs),
   ("s3_profile", .str b.s3_profile),
   ("s3_bucket", .str b.s3_bucket),
   ("s3_path", .str b.s3_path),
   ("create_archives", .bool create_archives),
   ("upload_to_s3", .bool upload_flag),
   ("cleanup", .bool cleanup),
   ("volume_size", .str volume_size)]

/-- Model of `get_repositories` (github_backup.py lines 139-172): the paginated
listing collapsed to its overall outcome, then the fork filter. -/
def gh_get_repositories (b : GHBackup) (env : GHEnv) : Option (List Repo) :=
  match env.fetch_result with
  | none => none
  | some rs => some (if b.include_forks then rs else rs.filter fun r => !r.fork)

/-- Python `clone_url.replace("https://", "https://x-access-token:TOKEN@")`. -/
def gh_auth_url (token url : String) : String :=
  py_replace url "https://" ("https://x-access-token:" ++ token ++ "@")

/-- Everything the per-repository loop body of `perform_backup` reads:
the configuration, the environment, the run's flags, the directories
computed before the loop, and whether the local `completed_repos` list
aliases the live checkpoint list (it does exactly when `resume` is on
and the loaded checkpoint already had a `completed_repos` key; in every
other case the local list stays frozen at `[]`). -/
structure GHParams where
  b : GHBackup
  env : GHEnv
  create_archives : Bool
  upload_flag : Bool
  confirm : Bool
  aliased : Bool
  backup_dir : String
  archive_dir : String
  dest_s3_path : String

/-- The skip test of the loop (github_backup.py line 394):
`repo_name in completed_repos and self.resume`. -/
def gh_skip (p : GHParams) (r : Repo) (cm : CMState) : Bool :=
  (if p.aliased then (cm.data.completed_repos.getD []).contains r.name
   else false) && p.b.resume

/-- Model of `clone_repository` (github_backup.py lines 174-222): returns the
events it performs and its success.  On the resume-update path only the
fetch runs (LFS and wiki are skipped by the early return); LFS and wiki
failures are warnings only. -/
def gh_clone_repository (p : GHParams) (r : Repo) : List Event × Bool :=
  let repo_dir := p.backup_dir ++ "/" ++ r.name
  let clone_part : List Event → List Event × Bool := fun evs =>
    let auth := gh_auth_url p.b.github_token r.clone_url
    let clone_cmd := ["git", "clone", "--mirror", auth, repo_dir]
    if !p.env.run_ok clone_cmd then (evs ++ [.cmd clone_cmd], false)
    else
      let lfs_cmd := ["git", "-C", repo_dir, "lfs", "fetch", "--all"]
      let ev1 := evs ++ [.cmd clone_cmd]
        ++ (if p.b.include_lfs then [.cmd lfs_cmd] else [])
      let wiki_url := py_replace r.clone_url ".git" ".wiki.git"
      let wiki_auth := gh_auth_url p.b.github_token wiki_url
      let wiki_dir := p.backup_dir ++ "/" ++ r.name ++ ".wiki"
      let wiki_cmd := ["git", "clone", "--mirror", wiki_auth, wiki_dir]
      (ev1 ++ (if p.b.include_wikis then [.cmd wiki_cmd] else []), true)
  if p.env.already_cloned r.name then
    if p.b.resume then
      let upd := ["git", "-C", repo_dir, "fetch", "--all", "--tags", "--prune"]
      ([.cmd upd], p.env.run_ok upd)
    else
      if !p.env.rm_ok repo_dir then ([.rmtree repo_dir], false)
      else clone_part [.rmtree repo_dir]
  else clone_part []

/-- Model of `create_archive` (github_backup.py lines 224-239), called with
`archive_dir/repo_name` as the per-repository archive directory. -/
def gh_create_archive (p : GHParams) (r : Repo) (volume_size : String) :
    List Event × Bool :=
  let repo_archive_dir := p.archive_dir ++ "/" ++ r.name
  if !p.env.mkdir_ok repo_archive_dir then ([.mkdirp repo_archive_dir], false)
  else
    let dar_cmd := ["dar", "-w", "-s", volume_size, "-c",
      repo_archive_dir ++ "/" ++ r.name, "-R", p.backup_dir ++ "/" ++ r.name]
    ([.mkdirp repo_archive_dir, .cmd dar_cmd], p.env.run_ok dar_cmd)

/-- Model of `upload_to_s3` (github_backup.py lines 241-255).  The caller (line
432) passes `dest_s3_path/repo_name` as the destination, to which the
method appends `/repo_name/` again; that duplication is preserved. -/
def gh_upload_repo (p : GHParams) (r : Repo) : List Event × Bool :=
  if p.b.s3_bucket = "" then ([], true)
  else
    let repo_archive_dir := p.archive_dir ++ "/" ++ r.name
    let dest_arg := p.dest_s3_path ++ "/" ++ r.name
    let repo_s3_path := dest_arg ++ "/" ++ r.name ++ "/"
    let upload_cmd := ["aws", "s3", "sync", repo_archive_dir, repo_s3_path,
        "--storage-class", p.b.storage_class]
      ++ (if p.b.s3_profile ≠ "" then ["--profile", p.b.s3_profile] else [])
    ([.cmd upload_cmd], p.env.run_ok upload_cmd)

/-- Append a repository name to `checkpoint_data['completed_repos']`
(github_backup.py lines 438-441), creating the key if absent. -/
def gh_push_completed (name : String) (cm : CMState) : CMState :=
  { cm with data := { cm.data with
      completed_repos := some (cm.data.completed_repos.getD [] ++ [name]) } }

/-- The archive sub-step of the loop body (github_backup.py lines
416-424): not requested or declined yields `.ok []` (continue with the
repository), success yields its events, failure yields `.error`
(abandon the repository). -/
def gh_arch_step (p : GHParams) (r : Repo) (volume_size : String) :
    Except (List Event) (List Event) :=
  if p.create_archives then
    if p.confirm && !p.env.confirm_ok ("create archive for " ++ r.name) then
      .ok []
    else
      let (evA, okA) := gh_create_archive p r volume_size
      if okA then .ok evA else .error evA
  else .ok []

/-- The upload sub-step of the loop body (github_backup.py lines
426-435), analogous to the archive sub-step. -/
def gh_upl_step (p : GHParams) (r : Repo) : Except (List Event) (List Event) :=
  if p.upload_flag && p.create_archives then
    if p.confirm && !p.env.confirm_ok ("upload " ++ r.name ++ " to S3") then
      .ok []
    else
      let (evU, okU) := gh_upload_repo p r
      if okU then .ok evU else .error evU
  else .ok []

/-- The loop body for one repository (github_backup.py lines 389-444):
skip if already completed; a declined clone confirmation skips the
repository; a clone failure abandons the repository; a declined archive
or upload confirmation skips only that step; an archive or upload
failure abandons the repository; otherwise the repository is recorded
completed and saved.  Returns the events, the new manager state, and
whether the repository counted as a success. -/
def gh_process_one (p : GHParams) (r : Repo) (volume_size : String)
    (cm : CMState) : List Event × CMState × Bool :=
  if gh_skip p r cm then ([], cm, true)
  else if p.confirm && !p.env.confirm_ok ("clone repository " ++ r.name) then
    ([], cm, false)
  else
    let (evC, okC) := gh_clone_repository p r
    if !okC then (evC, cm, false)
    else
      match gh_arch_step p r volume_size with
      | .error evA => (evC ++ evA, cm, false)
      | .ok evA =>
        match gh_upl_step p r with
        | .error evU => (evC ++ evA ++ evU, cm, false)
        | .ok evU =>
          let cm' := (cm_save p.env.save_ok (gh_push_completed r.name cm)).2
          (evC ++ evA ++ evU, cm', true)

/-- The repository loop: process each repository in list order,
accumulating events, the evolving manager state, and the number of
successes. -/
def gh_process_list (p : GHParams) (volume_size : String) :
    List Repo → CMState → List Event × CMState × Nat
  | [], cm => ([], cm, 0)
  | r :: rest, cm =>
    let (ev, cm', ok) := gh_process_one p r volume_size cm
    let (evs, cm'', k) := gh_process_list p volume_size rest cm'
    (ev ++ evs, cm'', (if ok then 1 else 0) + k)

/-- The result of a `GitHubBackup.perform_backup` run. -/
structure GHOut where
  ok : Bool
  success_count : Nat
  total : Nat
  events : List Event
  cm : CMState
  deriving Repr

/-- An abort of the whole GitHub backup job before the loop ran. -/
def gh_abort (events : List Event) (cm : CMState) : GHOut :=
  ⟨false, 0, 0, events, cm⟩

/-- Step 1 of `GitHubBackup.perform_backup` (github_backup.py lines
338-360): obtain the repository list from the checkpoint when resuming
and already stored, else from the API, persisting it immediately;
`.error` aborts the whole job. -/
def gh_step1 (b : GHBackup) (env : GHEnv) (confirm : Bool) (cm1 : CMState) :
    Except GHOut (List Repo × CMState) :=
  if b.resume && cm1.data.repositories.isSome then
    .ok (cm1.data.repositories.getD [], cm1)
  else if confirm && !env.confirm_ok "fetch repositories list" then
    .error (gh_abort [] cm1)
  else
    match gh_get_repositories b env with
    | none => .error (gh_abort [] cm1)
    | some rs =>
      let cm' := (cm_save env.save_ok
        { cm1 with data := { cm1.data with repositories := some rs } }).2
      .ok (rs, cm')

/-- Steps 2-4 of `GitHubBackup.perform_backup` (github_backup.py lines
362-467): create the local directories, process each repository, run
the optional cleanup (a single try block: a failure removing the backup
dir skips the archive dir removal; failures are warnings), and report
success iff at least one repository succeeded. -/
def gh_stage2 (p : GHParams) (volume_size : String) (cleanup : Bool)
    (repos : List Repo) (cm2 : CMState) : GHOut :=
  if p.confirm && !p.env.confirm_ok "create backup directories" then gh_abort [] cm2
  else if !p.env.mkdir_ok p.backup_dir then gh_abort [.mkdirp p.backup_dir] cm2
  else if p.create_archives && !p.env.mkdir_ok p.archive_dir then
    gh_abort [.mkdirp p.backup_dir, .mkdirp p.archive_dir] cm2
  else
    let ev2 : List Event := [.mkdirp p.backup_dir]
      ++ (if p.create_archives then [.mkdirp p.archive_dir] else [])
    let (evL, cmL, count) := gh_process_list p volume_size repos cm2
    let evC : List Event :=
      if cleanup then
        if p.confirm && !p.env.confirm_ok "cleanup local directories" then []
        else if !p.env.rm_ok p.backup_dir then [.rmtree p.backup_dir]
        else [.rmtree p.backup_dir]
          ++ (if p.create_archives then [.rmtree p.archive_dir] else [])
      else []
    ⟨decide (0 < count), count, repos.length, ev2 ++ evL ++ evC, cmL⟩

/-- Model of `GitHubBackup.perform_backup` (github_backup.py lines 257-467).
Checkpoint path resolution (lines 262-271) is not modelled.
`check_aws_cli` and `check_s3_profile` only check anything when an S3
bucket is configured (lines 87-95, 106-109).  The per-repository loop
reads the local `completed_repos` list, which aliases the live
checkpoint list exactly when `resume` is on and the loaded checkpoint
already had a `completed_repos` key (the `aliased` flag). -/
def gh_perform_backup (b : GHBackup)
    (create_archives upload_flag cleanup confirm : Bool) (volume_size : String)
    (env : GHEnv) (file0 : FileState) : GHOut :=
  let cm0 := cm_new file0 true
  -- lines 276-295: resume with the saved backup id, or initialize
  let resumed := b.resume && cm0.data.backup_id.isSome
  let timestamp := if resumed then cm0.data.backup_id.getD "" else env.now
  let cm1 := if resumed then cm0 else
    init_checkpoint (gh_config_dict b create_archives upload_flag cleanup volume_size)
      env.now env.now env.save_ok cm0
  -- lines 297-305: directories and destination path
  let backup_dir := b.base_local_path ++ "/" ++ b.org_name ++ "/" ++ timestamp
    ++ "/repositories"
  let archive_dir := b.base_local_path ++ "/" ++ b.org_name ++ "/" ++ timestamp
    ++ "/archives"
  let dest_s3_path := "s3://" ++ b.s3_bucket ++ "/" ++ b.s3_path ++ "/" ++ timestamp
  -- lines 307-318: pre-run checks
  if !env.git_present then gh_abort [] cm1
  else if create_archives && !env.dar_present then gh_abort [] cm1
  else if upload_flag && !(if b.s3_bucket ≠ "" then env.aws_present else true) then
    gh_abort [] cm1
  else if upload_flag
      && !(if b.s3_profile = "" || b.s3_bucket = "" then true else env.s3_profile_ok) then
    gh_abort [] cm1
  else
    match gh_step1 b env confirm cm1 with
    | .error out => out
    | .ok (repos, cm2) =>
      let aliased := b.resume && cm2.data.completed_repos.isSome
      let p : GHParams :=
        ⟨b, env, create_archives, upload_flag, confirm, aliased,
         backup_dir, archive_dir, dest_s3_path⟩
      gh_stage2 p volume_size cleanup repos cm2

/-- Model of `main` of src/backup_github.py (lines 8-77): exits 1 when the
GITHUB_TOKEN environment variable is unset, otherwise runs
`perform_backup` with `create_archives = not no_archives` and
`upload_to_s3 = not no_s3_upload`, exiting 1 on a False result and 0
otherwise.  Returns the process exit code. -/
def backup_github_main (token : Option String) (b : GHBackup)
    (no_archives no_s3_upload cleanup confirm : Bool) (volume_size : String)
    (env : GHEnv) (file0 : FileState) : Nat :=
  match token with
  | none => 1
  | some t =>
    let out := gh_perform_backup { b with github_token := t }
      (!no_archives) (!no_s3_upload) cleanup confirm volume_size env file0
    if out.ok then 0 else 1

/-! UnpackUtility (src/backup_utils/pack_utils.py) -/

/-- The attribute names of a Python `dict` object (its methods).  In
Python, `hasattr(d, k)` for a dict `d` checks these object attributes,
never the mapping's keys, so it is False for any stored key such as
"extraction_complete". -/
def dict_attr_names : List String :=
  ["clear", "copy", "fromkeys", "get", "items", "keys", "pop", "popitem",
   "setdefault", "update", "values"]

/-- Python `hasattr(checkpoint_data["progress"], name)` where the progress
record is a plain dict. -/
def py_dict_hasattr (name : String) : Bool :=
  dict_attr_names.contains name

/-- The extraction resume guard of `UnpackUtility.perform_unpack`
(pack_utils.py line 491): `self.resume and self.checkpoint_manager and
hasattr(progress, "extraction_complete") and progress
["extraction_complete"]`.  The manager is always truthy there, and the
final conjunct reads the dynamic key (absent key would raise, but the
`hasattr` conjunct is evaluated first). -/
def unpack_extraction_guard (resume : Bool) (progress : Progress) : Bool :=
  resume && py_dict_hasattr "extraction_complete"
    && progress.extraction_complete.getD false

/-- The `UnpackUtility` object configuration (pack_utils.py lines
282-298), after `__init__` has applied its defaults. -/
structure UnpackUtility where
  destination_folder : String := ""
  source_profile : String := ""
  source_bucket : String := ""
  source_path : String := ""
  base_download_path : String := ""
  resume : Bool := true
  deriving DecidableEq, Repr

/-- The environment of an `UnpackUtility.perform_unpack` run.
`listdir` is the content of the download directory when listed. -/
structure UnpackEnv where
  dar_present : Bool := true
  aws_present : Bool := true
  profile_ok : Bool := true
  mk_download_ok : Bool := true
  listdir : List String := []
  run_ok : List String → Bool := fun _ => true
  confirm_ok : String → Bool := fun _ => true
  now : String := ""
  save_ok : Bool := true

/-- The configuration dict stored into the checkpoint by
`UnpackUtility.perform_unpack` (pack_utils.py lines 405-411). -/
def unpack_config_dict (u : UnpackUtility) (cleanup : Bool) : Config :=
  [("destination_folder", .str u.destination_folder),
   ("source_profile", .str u.source_profile),
   ("source_bucket", .str u.source_bucket),
   ("source_path", .str u.source_path),
   ("cleanup", .bool cleanup)]

/-- The result of an `UnpackUtility.perform_unpack` run. -/
structure UnpackOut where
  ok : Bool
  events : List Event
  cm : CMState
  deriving Repr

/-- Model of `UnpackUtility.perform_unpack` (pack_utils.py lines 382-542).
Checkpoint path resolution (lines 386-397) is not modelled.  The
unguarded `os.makedirs(self.DESTINATION_FOLDER)` in step 3 (line 495)
is recorded as an event and assumed not to raise (an OSError there
would propagate uncaught; no claim depends on it). -/
def unpack_perform (u : UnpackUtility) (cleanup confirm : Bool)
    (env : UnpackEnv) (file0 : FileState) : UnpackOut :=
  let cm0 := cm_new file0 true
  -- lines 402-414: initialize unless resuming an existing id
  let resumed := u.resume && cm0.data.backup_id.isSome
  let cm1 := if resumed then cm0 else
    init_checkpoint (unpack_config_dict u cleanup) env.now env.now env.save_ok cm0
  -- lines 416-421: paths
  let download_dir := u.base_download_path ++ "/" ++ u.source_bucket ++ "/"
    ++ u.source_path
  let source_s3_path := "s3://" ++ u.source_bucket ++ "/" ++ u.source_path ++ "/"
  -- lines 423-431: pre-run checks
  if !env.dar_present then ⟨false, [], cm1⟩
  else if !env.aws_present then ⟨false, [], cm1⟩
  else if !check_profile env.profile_ok u.source_profile then ⟨false, [], cm1⟩
  else
  -- lines 444-456: step 1, create the download directory
  if confirm && !env.confirm_ok "create download directory" then ⟨false, [], cm1⟩
  else
  let ev1 : List Event := [.mkdirp download_dir]
  if !env.mk_download_ok then ⟨false, ev1, cm1⟩
  else
  -- lines 458-485: step 2, download archives from S3
  let step2 : Except UnpackOut (List Event × CMState) :=
    if u.resume && cm1.data.progress.download_complete then .ok (ev1, cm1)
    else
      let dl := ["aws", "s3", "sync", source_s3_path, download_dir]
        ++ (if u.source_profile ≠ "" then ["--profile", u.source_profile] else [])
      if confirm && !env.confirm_ok "download archives from S3" then
        .error ⟨false, ev1, cm1⟩
      else if !env.run_ok dl then .error ⟨false, ev1 ++ [.cmd dl], cm1⟩
      else .ok (ev1 ++ [.cmd dl],
        mark_download_complete (env.listdir.filter (py_endswith · ".dar"))
          env.save_ok cm1)
  match step2 with
  | .error out => out
  | .ok (ev2, cm2) =>
  -- lines 487-522: step 3, extract the archives
  let step3 : Except UnpackOut (List Event × CMState) :=
    if unpack_extraction_guard u.resume cm2.data.progress then .ok (ev2, cm2)
    else
      let ev3a := ev2 ++ [.mkdirp u.destination_folder]
      let archive_files := env.listdir.filter (py_endswith · ".1.dar")
      match archive_files with
      | [] => .error ⟨false, ev3a, cm2⟩
      | archive_file :: _ =>
        let archive_basename := py_dropRight archive_file 6
        let archive_path := download_dir ++ "/" ++ archive_basename
        let dar_cmd := ["dar", "-x", archive_path, "-R", u.destination_folder, "-v"]
        if confirm && !env.confirm_ok "extract archives" then
          .error ⟨false, ev3a, cm2⟩
        else if !env.run_ok dar_cmd then .error ⟨false, ev3a ++ [.cmd dar_cmd], cm2⟩
        else
          let cm' := { cm2 with data := { cm2.data with progress :=
            { cm2.data.progress with extraction_complete := some true } } }
          .ok (ev3a ++ [.cmd dar_cmd], (cm_save env.save_ok cm').2)
  match step3 with
  | .error out => out
  | .ok (ev3, cm3) =>
  -- lines 524-536: optional cleanup (decline or failure skips it)
  let ev4 :=
    if cleanup then
      if confirm && !env.confirm_ok "remove downloaded archive files" then ev3
      else ev3 ++ [.rmtree download_dir]
    else ev3
  ⟨true, ev4, cm3⟩

/-! Claims about the checkpoint store -/

/-- Pointwise ordering of the three phase-completion flags: every flag
set in `p` is still set in `q`. -/
def progress_le (p q : Progress) : Prop :=
  (p.download_complete = true → q.download_complete = true) ∧
  (p.archive_complete = true → q.archive_complete = true) ∧
  (p.upload_complete = true → q.upload_complete = true)

theorem progress_le_refl (p : Progress) : progress_le p p :=
  ⟨id, id, id⟩

theorem progress_le_trans {p q r : Progress}
    (h1 : progress_le p q) (h2 : progress_le q r) : progress_le p r :=
  ⟨fun h => h2.1 (h1.1 h), fun h => h2.2.1 (h1.2.1 h), fun h => h2.2.2 (h1.2.2 h)⟩

/-- An operation other than `initialize` whose filesystem write (if
any) succeeds. -/
def cop_good : COp → Bool
  | .opInit _ _ _ _ => false
  | .markDownload _ ok => ok
  | .markArchive _ ok => ok
  | .markUpload _ ok => ok
  | .opLoad => true
  | .opSave ok => ok

/-- All three flags of a progress record are clear. -/
def progress_clear (p : Progress) : Prop :=
  p.download_complete = false ∧ p.archive_complete = false ∧ p.upload_complete = false

/-- Invariant carried along an auto-saving operation sequence whose
writes succeed: the file mirrors the in-memory data, except possibly
before the first write, when all in-memory flags are still clear. -/
def cm_inv (s : CMState) : Prop :=
  s.auto_save = true ∧
    (s.file = .content s.data ∨ progress_clear s.data.progress)

theorem cm_inv_new (fs : FileState) : cm_inv (cm_new fs true) := by
  cases fs <;> simp [cm_new, cm_load, cm_inv, progress_clear]

theorem cm_apply_good {s : CMState} {op : COp} (hs : cm_inv s)
    (hop : cop_good op = true) :
    cm_inv (cm_apply s op) ∧ progress_le s.data.progress (cm_apply s op).data.progress := by
  obtain ⟨hauto, hfile⟩ := hs
  cases op with
  | opInit cfg bid time ok => simp [cop_good] at hop
  | markDownload files ok =>
    simp [cop_good] at hop
    subst hop
    simp [cm_apply, mark_download_complete, hauto, cm_save, cm_inv, progress_le]
  | markArchive files ok =>
    simp [cop_good] at hop
    subst hop
    simp [cm_apply, mark_archive_complete, hauto, cm_save, cm_inv, progress_le]
  | markUpload files ok =>
    simp [cop_good] at hop
    subst hop
    simp [cm_apply, mark_upload_complete, hauto, cm_save, cm_inv, progress_le]
  | opLoad =>
    cases hf : s.file with
    | absent =>
      have happ : cm_apply s .opLoad = s := by simp [cm_apply, cm_load, hf]
      rw [happ]
      exact ⟨⟨hauto, hfile⟩, progress_le_refl _⟩
    | corrupt =>
      have happ : cm_apply s .opLoad = s := by simp [cm_apply, cm_load, hf]
      rw [happ]
      exact ⟨⟨hauto, hfile⟩, progress_le_refl _⟩
    | content d =>
      have happ : cm_apply s .opLoad = { s with data := d } := by
        simp [cm_apply, cm_load, hf]
      rw [happ]
      rcases hfile with hfe | hclear
      · rw [hf] at hfe
        injection hfe with h
        subst h
        exact ⟨⟨hauto, Or.inl (by simpa using hf)⟩, progress_le_refl _⟩
      · obtain ⟨h1, h2, h3⟩ := hclear
        refine ⟨⟨hauto, Or.inl (by simpa using hf)⟩,
          ⟨fun hx => absurd hx (by simp [h1]), fun hx => absurd hx (by simp [h2]),
           fun hx => absurd hx (by simp [h3])⟩⟩
  | opSave ok =>
    simp [cop_good] at hop
    subst hop
    exact ⟨⟨hauto, Or.inl (by simp [cm_apply, cm_save])⟩,
           by simp [cm_apply, cm_save]; exact progress_le_refl _⟩

theorem cm_run_good {s : CMState} {ops : List COp} (hs : cm_inv s)
    (hops : ∀ op ∈ ops, cop_good op = true) :
    cm_inv (cm_run s ops) ∧ progress_le s.data.progress (cm_run s ops).data.progress := by
  induction ops generalizing s with
  | nil => exact ⟨hs, progress_le_refl _⟩
  | cons op rest ih =>
    have h1 := cm_apply_good hs (hops op (by simp))
    have h2 := ih h1.1 (fun o ho => hops o (by simp [ho]))
    exact ⟨h2.1, progress_le_trans h1.2 h2.2⟩

theorem cm_run_append (s : CMState) (l1 l2 : List COp) :
    cm_run s (l1 ++ l2) = cm_run (cm_run s l1) l2 := by
  induction l1 generalizing s with
  | nil => rfl
  | cons op rest ih => simp [cm_run, ih]

/-- C5 counterexample: `CheckpointManager.load` does not let the caller
distinguish its two failure cases.  On an absent file and on a corrupt
file, the call returns the same value (False) and leaves the same
in-memory data, so no distinct CorruptCheckpoint error is observable. -/
theorem c5_load_indistinguishable_counterexample :
    (cm_load { data := {}, file := .absent, auto_save := true }).1 =
      (cm_load { data := {}, file := .corrupt, auto_save := true }).1 ∧
    (cm_load { data := {}, file := .absent, auto_save := true }).2.data =
      (cm_load { data := {}, file := .corrupt, auto_save := true }).2.data ∧
    (cm_new .absent true).data = (cm_new .corrupt true).data := by
  exact ⟨rfl, rfl, rfl⟩

/-- C5 (amended): `CheckpointManager.load` fails softly (returns False,
in-memory data untouched) when the checkpoint file is absent, and it
fails in exactly the same caller-observable way (returns False after
only printing an error) when the file is present but unparsable; only a
parseable file yields True and replaces the in-memory data.  The two
failure cases are therefore not distinguishable by the caller. -/
theorem c5_load_failure_modes (s : CMState) :
    (s.file = .absent → cm_load s = (false, s)) ∧
    (s.file = .corrupt → cm_load s = (false, s)) ∧
    (∀ d, s.file = .content d → cm_load s = (true, { s with data := d })) := by
  refine ⟨fun h => ?_, fun h => ?_, fun d h => ?_⟩ <;> simp [cm_load, h]

/-- C5 witness: the amended theorem applied to a manager holding a
corrupt file. -/
theorem c5_load_failure_modes_witness :
    cm_load { data := {}, file := .corrupt, auto_save := true } =
      (false, { data := {}, file := .corrupt, auto_save := true }) :=
  (c5_load_failure_modes _).2.1 rfl

/-- C6 counterexample: the phase flags are not monotonic over every
operation sequence on the same checkpoint file.  After
`mark_download_complete`, `download_complete` is true; the very next
operation, `initialize` (a `CheckpointManager` operation on the same
file, as performed by any non-resume rerun), transitions it back to
false. -/
theorem c6_monotonic_counterexample :
    (cm_apply (cm_new .absent true)
        (.markDownload ["f"] true)).data.progress.download_complete = true ∧
    (cm_apply (cm_apply (cm_new .absent true) (.markDownload ["f"] true))
        (.opInit [] "B1" "T1" true)).data.progress.download_complete = false := by
  exact ⟨rfl, rfl⟩

/-- C6 (amended): within one checkpoint file, the phase-completion
flags are monotonic over every sequence of `CheckpointManager`
operations that contains no `initialize` and whose filesystem writes
succeed (the auto-save policy of the orchestrators): once a flag is
true, no later `mark_*`, `save` or `load` transitions it back to false.
`initialize`, however, begins a new checkpoint in the same file and
resets every flag. -/
theorem c6_flags_monotonic (fs : FileState) (l1 l2 : List COp)
    (h : ∀ op ∈ l1 ++ l2, cop_good op = true) :
    progress_le (cm_run (cm_new fs true) l1).data.progress
      (cm_run (cm_new fs true) (l1 ++ l2)).data.progress := by
  have h1 : ∀ op ∈ l1, cop_good op = true := fun op ho => h op (by simp [ho])
  have h2 : ∀ op ∈ l2, cop_good op = true := fun op ho => h op (by simp [ho])
  have g1 := cm_run_good (cm_inv_new fs) h1
  rw [cm_run_append]
  exact (cm_run_good g1.1 h2).2

/-- C6 witness: a mark followed by a reload preserves the flag. -/
theorem c6_flags_monotonic_witness :
    (∀ op ∈ ([.markDownload ["f"] true] ++ [.opLoad] : List COp), cop_good op = true) ∧
    progress_le (cm_run (cm_new .absent true) [.markDownload ["f"] true]).data.progress
      (cm_run (cm_new .absent true)
        ([.markDownload ["f"] true] ++ [.opLoad])).data.progress :=
  ⟨by decide, c6_flags_monotonic .absent [.markDownload ["f"] true] [.opLoad] (by decide)⟩

/-- C8 counterexample: `validate_config` does not compare destructive
flags.  Two configurations that agree on the six compared keys but
differ on `use_delete` validate as a match (True), although a
resumption-relevant destructive flag differs. -/
theorem c8_validate_config_counterexample :
    validate_config
      [("source_profile", .str "p"), ("dest_profile", .str "q"),
       ("source_bucket", .str "sb"), ("dest_bucket", .str "db"),
       ("folder_to_backup", .str "f"), ("dest_bucket_base_path", .str "bp"),
       ("use_delete", .bool false)]
      [("source_profile", .str "p"), ("dest_profile", .str "q"),
       ("source_bucket", .str "sb"), ("dest_bucket", .str "db"),
       ("folder_to_backup", .str "f"), ("dest_bucket_base_path", .str "bp"),
       ("use_delete", .bool true)] = true ∧
    Config.find?
      [("source_profile", .str "p"), ("dest_profile", .str "q"),
       ("source_bucket", .str "sb"), ("dest_bucket", .str "db"),
       ("folder_to_backup", .str "f"), ("dest_bucket_base_path", .str "bp"),
       ("use_delete", .bool false)] "use_delete" ≠
    Config.find?
      [("source_profile", .str "p"), ("dest_profile", .str "q"),
       ("source_bucket", .str "sb"), ("dest_bucket", .str "db"),
       ("folder_to_backup", .str "f"), ("dest_bucket_base_path", .str "bp"),
       ("use_delete", .bool true)] "use_delete" := by
  constructor
  · decide
  · decide

/-- C8 (amended): `validate_config` returns True iff the saved and
current configurations agree on every one of the six compared keys
(source_profile, dest_profile, source_bucket, dest_bucket,
folder_to_backup, dest_bucket_base_path) that is present in both
dictionaries; keys absent from either side are skipped.  The key
`use_delete` is not among the compared keys, so (as the counterexample
exhibits) the check can return True although the two configurations
differ on that destructive flag. -/
theorem c8_validate_config_iff :
    (∀ saved current : Config,
      validate_config saved current = true ↔
        ∀ k ∈ essential_keys, ∀ cv sv, current.find? k = some cv →
          saved.find? k = some sv → cv = sv) ∧
    "use_delete" ∉ essential_keys := by
  constructor
  · intro saved current
    unfold validate_config
    rw [List.all_eq_true]
    constructor
    · intro h k hk cv sv hcv hsv
      have := h k hk
      rw [hcv, hsv] at this
      simpa using this
    · intro h k hk
      cases hcv : current.find? k with
      | none => simp [hcv]
      | some cv =>
        cases hsv : saved.find? k with
        | none => simp [hcv, hsv]
        | some sv => simp [hcv, hsv, h k hk cv sv hcv hsv]
  · decide

/-! Claims about the orchestrators -/

@[simp]
theorem cm_save_snd_data (ok : Bool) (s : CMState) :
    ((cm_save ok s).2).data = s.data := by
  unfold cm_save
  split <;> rfl

@[simp]
theorem cm_save_snd_auto (ok : Bool) (s : CMState) :
    ((cm_save ok s).2).auto_save = s.auto_save := by
  unfold cm_save
  split <;> rfl

@[simp]
theorem cm_save_false_eq (s : CMState) : cm_save false s = (false, s) := rfl

@[simp]
theorem cm_save_snd_file_false (s : CMState) :
    ((cm_save false s).2).file = s.file := rfl

@[simp]
theorem init_checkpoint_data (cfg : Config) (bid time : String) (ok : Bool)
    (s : CMState) :
    (init_checkpoint cfg bid time ok s).data =
      { backup_id := some bid, timestamp := some time, config := cfg,
        progress := {}, repositories := none, completed_repos := none } := by
  simp only [init_checkpoint]
  split <;> simp

/-- The download flag of a conditional between two states whose flags
are both clear. -/
theorem ite_download_false (c : Prop) [Decidable c] (a b : CMState)
    (ha : a.data.progress.download_complete = false)
    (hb : b.data.progress.download_complete = false) :
    (if c then a else b).data.progress.download_complete = false := by
  split <;> assumption

/-- C10: in `UnpackUtility.perform_unpack` the extraction step is never
skipped on account of checkpoint state.  The resume guard
`resume and hasattr(progress_dict, "extraction_complete") and ...`
is always false because `hasattr` on a dict checks object attributes,
not keys; hence every run that reaches step 3 attempts dar extraction,
even when the loaded checkpoint records `extraction_complete = true`. -/
theorem c10_extraction_never_skipped (rm : Bool) (pr : Progress)
    (u : UnpackUtility) (env : UnpackEnv) (d : CheckpointData)
    (af : String) (rest : List String) (cleanup : Bool)
    (hres : u.resume = true)
    (hid : d.backup_id.isSome = true)
    (hdl : d.progress.download_complete = true)
    (hdar : env.dar_present = true) (haws : env.aws_present = true)
    (hprof : check_profile env.profile_ok u.source_profile = true)
    (hmk : env.mk_download_ok = true)
    (haf : env.listdir.filter (py_endswith · ".1.dar") = af :: rest) :
    unpack_extraction_guard rm pr = false ∧
    Event.cmd ["dar", "-x",
        u.base_download_path ++ "/" ++ u.source_bucket ++ "/" ++ u.source_path
          ++ "/" ++ py_dropRight af 6, "-R", u.destination_folder, "-v"]
      ∈ (unpack_perform u cleanup false env (.content d)).events := by
  have hguard : ∀ rm' pr', unpack_extraction_guard rm' pr' = false := by
    intro rm' pr'
    unfold unpack_extraction_guard
    rw [show py_dict_hasattr "extraction_complete" = false from by decide]
    simp
  refine ⟨hguard rm pr, ?_⟩
  unfold unpack_perform
  simp only [cm_new, cm_load, hres, hid, hdar, haws, hprof, hmk, hdl, hguard, haf,
    Bool.and_self, Bool.not_true, Bool.false_and, Bool.and_false, Bool.and_true,
    Bool.true_and, if_true, if_false, ite_true, ite_false, Bool.not_false]
  split
  · simp_all
  · split
    · rename_i out heq
      split at heq
      · injection heq with h
        subst h
        simp
      · simp at heq
    · rename_i ev3 cm3 heq
      split at heq
      · simp at heq
      · rw [Except.ok.injEq] at heq
        have h1 : ev3 = [Event.mkdirp (u.base_download_path ++ "/" ++ u.source_bucket
            ++ "/" ++ u.source_path)] ++ [Event.mkdirp u.destination_folder]
            ++ [Event.cmd ["dar", "-x", u.base_download_path ++ "/" ++ u.source_bucket
              ++ "/" ++ u.source_path ++ "/" ++ py_dropRight af 6, "-R",
              u.destination_folder, "-v"]] := by
          have := congrArg Prod.fst heq
          simpa using this.symm
        subst h1
        split <;> simp

/-- A GitHub run result reports success exactly when its success count
is positive. -/
abbrev gh_out_consistent (o : GHOut) : Prop :=
  o.ok = decide (0 < o.success_count)

theorem gh_stage2_consistent (p : GHParams) (volume_size : String)
    (cleanup : Bool) (repos : List Repo) (cm2 : CMState) :
    gh_out_consistent (gh_stage2 p volume_size cleanup repos cm2) := by
  unfold gh_stage2 gh_abort
  repeat' split
  all_goals rfl

theorem gh_step1_error_consistent (b : GHBackup) (env : GHEnv) (confirm : Bool)
    (cm1 : CMState) (out : GHOut)
    (h : gh_step1 b env confirm cm1 = .error out) : gh_out_consistent out := by
  unfold gh_step1 gh_abort at h
  repeat' split at h
  all_goals first
    | (injection h with h; cases h; rfl)
    | injection h

theorem gh_perform_consistent (b : GHBackup)
    (create_archives upload_flag cleanup confirm : Bool) (volume_size : String)
    (env : GHEnv) (file0 : FileState) :
    gh_out_consistent (gh_perform_backup b create_archives upload_flag cleanup
      confirm volume_size env file0) := by
  unfold gh_perform_backup gh_abort
  dsimp only
  repeat' split
  all_goals first
    | rfl
    | (rename_i heq; exact gh_step1_error_consistent _ _ _ _ _ heq)
    | exact gh_stage2_consistent _ _ _ _ _

/-- C7: `GitHubBackup.perform_backup` reports overall success exactly
when at least one repository was successfully processed
(`success_count > 0`) — every early-abort path reports failure with a
zero count — and the `backup_github.py` process exits with code zero
exactly when `perform_backup` reported success (a missing GITHUB_TOKEN
exits non-zero before any backup runs). -/
theorem c7_success_count_and_exit (b : GHBackup)
    (create_archives upload_flag cleanup confirm : Bool) (volume_size : String)
    (env : GHEnv) (file0 : FileState) (token : Option String)
    (no_archives no_s3_upload : Bool) :
    ((gh_perform_backup b create_archives upload_flag cleanup confirm
        volume_size env file0).ok
      = decide (0 < (gh_perform_backup b create_archives upload_flag cleanup
        confirm volume_size env file0).success_count)) ∧
    (backup_github_main token b no_archives no_s3_upload cleanup confirm
        volume_size env file0 = 0 ↔
      ∃ t, token = some t ∧
        (gh_perform_backup { b with github_token := t } (!no_archives)
          (!no_s3_upload) cleanup confirm volume_size env file0).ok = true) := by
  constructor
  · exact gh_perform_consistent b create_archives upload_flag cleanup confirm
      volume_size env file0
  · cases token with
    | none => simp [backup_github_main]
    | some t =>
      simp only [backup_github_main]
      split
      · rename_i hok
        simp [hok]
      · rename_i hok
        simp [hok]

@[simp]
theorem gh_process_list_nil (p : GHParams) (vs : String) (cm : CMState) :
    gh_process_list p vs [] cm = ([], cm, 0) := rfl

theorem gh_process_list_cons (p : GHParams) (vs : String) (r : Repo)
    (rest : List Repo) (cm : CMState) :
    gh_process_list p vs (r :: rest) cm =
      ((gh_process_one p r vs cm).1
        ++ (gh_process_list p vs rest (gh_process_one p r vs cm).2.1).1,
       (gh_process_list p vs rest (gh_process_one p r vs cm).2.1).2.1,
       (if (gh_process_one p r vs cm).2.2 then 1 else 0)
        + (gh_process_list p vs rest (gh_process_one p r vs cm).2.1).2.2) := by
  rcases h1 : gh_process_one p r vs cm with ⟨ev, cm', ok⟩
  rcases h2 : gh_process_list p vs rest cm' with ⟨evs, cm'', k⟩
  simp [gh_process_list, h1, h2]

/-- Processing a concatenation processes the first part, then the
second from the resulting state; events concatenate and counts add. -/
theorem gh_process_list_append (p : GHParams) (vs : String)
    (l1 l2 : List Repo) (cm : CMState) :
    (gh_process_list p vs (l1 ++ l2) cm).1
        = (gh_process_list p vs l1 cm).1
          ++ (gh_process_list p vs l2 (gh_process_list p vs l1 cm).2.1).1 ∧
    (gh_process_list p vs (l1 ++ l2) cm).2.1
        = (gh_process_list p vs l2 (gh_process_list p vs l1 cm).2.1).2.1 ∧
    (gh_process_list p vs (l1 ++ l2) cm).2.2
        = (gh_process_list p vs l1 cm).2.2
          + (gh_process_list p vs l2 (gh_process_list p vs l1 cm).2.1).2.2 := by
  induction l1 generalizing cm with
  | nil => simp
  | cons r rest ih =>
    obtain ⟨ih1, ih2, ih3⟩ := ih (gh_process_one p r vs cm).2.1
    simp only [List.cons_append, gh_process_list_cons]
    exact ⟨by rw [ih1, List.append_assoc], by rw [ih2],
           by rw [ih3, Nat.add_assoc]⟩

/-- A repository whose processing did not succeed leaves the manager
state unchanged: in particular it is not appended to
`completed_repos`, and no checkpoint write happens for it. -/
theorem gh_process_one_failed (p : GHParams) (r : Repo) (vs : String)
    (cm : CMState) :
    (gh_process_one p r vs cm).2.2 = false → (gh_process_one p r vs cm).2.1 = cm := by
  unfold gh_process_one
  repeat' split
  all_goals intro h
  all_goals first | rfl | simp at h

/-- C3: a phase failure for one repository (any of clone, archive or
upload failing, so the loop body reports no success for it) aborts
processing of that repository only.  The repository is not recorded in
`completed_repos` (the manager state is returned unchanged), and the
surrounding run continues with the remaining repositories in list
order: the final manager state and success count over
`pre ++ [r] ++ post` equal those over `pre ++ post`, so the other
repositories' outcomes are unaffected. -/
theorem c3_item_failure_isolation (p : GHParams) (vs : String)
    (pre post : List Repo) (r : Repo) (cm : CMState)
    (hfail : (gh_process_one p r vs (gh_process_list p vs pre cm).2.1).2.2 = false) :
    (gh_process_one p r vs (gh_process_list p vs pre cm).2.1).2.1
        = (gh_process_list p vs pre cm).2.1 ∧
    (gh_process_list p vs (pre ++ r :: post) cm).2.1
        = (gh_process_list p vs (pre ++ post) cm).2.1 ∧
    (gh_process_list p vs (pre ++ r :: post) cm).2.2
        = (gh_process_list p vs (pre ++ post) cm).2.2 := by
  have h1 := gh_process_one_failed p r vs (gh_process_list p vs pre cm).2.1 hfail
  obtain ⟨_, a2, a3⟩ := gh_process_list_append p vs pre (r :: post) cm
  obtain ⟨_, b2, b3⟩ := gh_process_list_append p vs pre post cm
  refine ⟨h1, ?_, ?_⟩
  · rw [a2, b2, gh_process_list_cons]
    simp [h1]
  · rw [a3, b3, gh_process_list_cons]
    simp [h1, hfail]

/-- C3 witness: the spec's own scenario — three repositories where the
archive (dar) phase fails for the middle one; the failed repository is
skipped, the others are unaffected. -/
theorem c3_item_failure_isolation_witness :
    ((gh_process_one
        ⟨{ org_name := "o", base_local_path := "/g", s3_bucket := "bkt", s3_path := "gp" },
         { run_ok := fun argv => !(argv.contains "/g/o/T0/archives/beta/beta") },
         true, true, false, true,
         "/g/o/T0/repositories", "/g/o/T0/archives", "s3://bkt/gp/T0"⟩
        { name := "beta", clone_url := "https://github.com/o/beta.git", fork := false }
        "1G"
        (gh_process_list
          ⟨{ org_name := "o", base_local_path := "/g", s3_bucket := "bkt", s3_path := "gp" },
           { run_ok := fun argv => !(argv.contains "/g/o/T0/archives/beta/beta") },
           true, true, false, true,
           "/g/o/T0/repositories", "/g/o/T0/archives", "s3://bkt/gp/T0"⟩
          "1G"
          [{ name := "alpha", clone_url := "https://github.com/o/alpha.git", fork := false }]
          { data := { backup_id := some "T0", completed_repos := some [] },
            file := .content { backup_id := some "T0", completed_repos := some [] },
            auto_save := true }).2.1).2.2 = false) ∧
    ((gh_process_list
        ⟨{ org_name := "o", base_local_path := "/g", s3_bucket := "bkt", s3_path := "gp" },
         { run_ok := fun argv => !(argv.contains "/g/o/T0/archives/beta/beta") },
         true, true, false, true,
         "/g/o/T0/repositories", "/g/o/T0/archives", "s3://bkt/gp/T0"⟩
        "1G"
        ([{ name := "alpha", clone_url := "https://github.com/o/alpha.git", fork := false }]
          ++ { name := "beta", clone_url := "https://github.com/o/beta.git", fork := false }
            :: [{ name := "gamma", clone_url := "https://github.com/o/gamma.git", fork := false }])
        { data := { backup_id := some "T0", completed_repos := some [] },
          file := .content { backup_id := some "T0", completed_repos := some [] },
          auto_save := true }).2.2
      = (gh_process_list
        ⟨{ org_name := "o", base_local_path := "/g", s3_bucket := "bkt", s3_path := "gp" },
         { run_ok := fun argv => !(argv.contains "/g/o/T0/archives/beta/beta") },
         true, true, false, true,
         "/g/o/T0/repositories", "/g/o/T0/archives", "s3://bkt/gp/T0"⟩
        "1G"
        ([{ name := "alpha", clone_url := "https://github.com/o/alpha.git", fork := false }]
          ++ [{ name := "gamma", clone_url := "https://github.com/o/gamma.git", fork := false }])
        { data := { backup_id := some "T0", completed_repos := some [] },
          file := .content { backup_id := some "T0", completed_repos := some [] },
          auto_save := true }).2.2) :=
  ⟨by decide,
   (c3_item_failure_isolation
     ⟨{ org_name := "o", base_local_path := "/g", s3_bucket := "bkt", s3_path := "gp" },
      { run_ok := fun argv => !(argv.contains "/g/o/T0/archives/beta/beta") },
      true, true, false, true,
      "/g/o/T0/repositories", "/g/o/T0/archives", "s3://bkt/gp/T0"⟩
     "1G"
     [{ name := "alpha", clone_url := "https://github.com/o/alpha.git", fork := false }]
     [{ name := "gamma", clone_url := "https://github.com/o/gamma.git", fork := false }]
     { name := "beta", clone_url := "https://github.com/o/beta.git", fork := false }
     { data := { backup_id := some "T0", completed_repos := some [] },
       file := .content { backup_id := some "T0", completed_repos := some [] },
       auto_save := true }
     (by decide)).2.2⟩

/-- When every repository in the list is already recorded completed
(and the local completed list aliases the live one), the loop performs
no events, leaves the state untouched, and counts every repository as
a success. -/
theorem gh_process_list_all_skip (p : GHParams) (vs : String) (l : List Repo)
    (cm : CMState) (hres : p.b.resume = true) (hal : p.aliased = true)
    (hall : ∀ r ∈ l, r.name ∈ cm.data.completed_repos.getD []) :
    gh_process_list p vs l cm = ([], cm, l.length) := by
  induction l with
  | nil => simp
  | cons r rest ih =>
    have hmem : r.name ∈ cm.data.completed_repos.getD [] := hall r (by simp)
    have hskip : gh_skip p r cm = true := by
      unfold gh_skip
      simp [hal, hres, List.contains, hmem]
    have hone : gh_process_one p r vs cm = ([], cm, true) := by
      unfold gh_process_one
      simp [hskip]
    have hrest := ih (fun x hx => hall x (by simp [hx]))
    rw [gh_process_list_cons, hone, hrest]
    simp [Nat.add_comm]

/-- C2: for a job that has already run to completion, re-running
`perform_backup` with the same configuration and `resume = true`
invokes zero transfer/archive/upload tool commands and reports the same
success result as the first run.  For `S3Backup`: when the loaded
checkpoint records all three phases complete, the run returns True with
an empty tool-command trace.  For `GitHubBackup`: when the checkpoint
stores the repository list and every repository is in
`completed_repos`, the run issues no tool command, counts every
repository as a success, and reports success accordingly. -/
theorem c2_idempotent_resume
    (b : S3Backup) (folder : String) (use_delete cleanup : Bool)
    (volume_size : String) (env : S3Env) (d : CheckpointData)
    (g : GHBackup) (ca uf gcleanup : Bool) (gvs : String) (genv : GHEnv)
    (gd : CheckpointData) (rs : List Repo) (names : List String)
    (hres : b.resume = true) (hid : d.backup_id.isSome = true)
    (h1 : d.progress.download_complete = true)
    (h2 : d.progress.archive_complete = true)
    (h3 : d.progress.upload_complete = true)
    (haws : env.aws_cli_present = true)
    (hsp : check_profile env.source_profile_ok b.source_profile = true)
    (hdp : check_profile env.dest_profile_ok b.dest_profile = true)
    (hmk : env.mk_staging_ok = true)
    (hgres : g.resume = true) (hgid : gd.backup_id.isSome = true)
    (hgrepos : gd.repositories = some rs)
    (hgcomp : gd.completed_repos = some names)
    (hgall : ∀ r ∈ rs, r.name ∈ names)
    (hggit : genv.git_present = true)
    (hgdar : (ca && !genv.dar_present) = false)
    (hgaws : (uf && !(if g.s3_bucket ≠ "" then genv.aws_present else true)) = false)
    (hgprof : (uf && !(if g.s3_profile = "" || g.s3_bucket = "" then true
        else genv.s3_profile_ok)) = false)
    (hgmkb : genv.mkdir_ok (g.base_local_path ++ "/" ++ g.org_name ++ "/"
        ++ gd.backup_id.getD "" ++ "/repositories") = true)
    (hgmka : (ca && !genv.mkdir_ok (g.base_local_path ++ "/" ++ g.org_name ++ "/"
        ++ gd.backup_id.getD "" ++ "/archives")) = false) :
    ((s3_perform_backup b folder use_delete cleanup false volume_size env
        (.content d)).ok = true ∧
     cmds_of (s3_perform_backup b folder use_delete cleanup false volume_size env
        (.content d)).events = []) ∧
    ((gh_perform_backup g ca uf gcleanup false gvs genv
        (.content gd)).success_count = rs.length ∧
     (gh_perform_backup g ca uf gcleanup false gvs genv
        (.content gd)).ok = decide (0 < rs.length) ∧
     cmds_of (gh_perform_backup g ca uf gcleanup false gvs genv
        (.content gd)).events = []) := by
  constructor
  · have hcm : cm_new (.content d) true = ⟨d, .content d, true⟩ := by
      simp [cm_new, cm_load]
    unfold s3_perform_backup
    rw [hcm]
    simp only [hres, hid, h1, h2, h3, haws, hsp, hdp, hmk, Bool.and_self,
      Bool.true_and, Bool.false_and, Bool.and_true, Bool.and_false,
      Bool.not_true, Bool.not_false, if_true, if_false, ite_true, ite_false]
    refine ⟨?_, ?_⟩ <;> (repeat' split) <;> simp_all [cmds_of]
  · have hcm : cm_new (.content gd) true = ⟨gd, .content gd, true⟩ := by
      simp [cm_new, cm_load]
    have hloop : ∀ q : GHParams, q.b = g → q.aliased = true →
        gh_process_list q gvs rs ⟨gd, .content gd, true⟩
          = ([], ⟨gd, .content gd, true⟩, rs.length) := by
      intro q hq hal
      exact gh_process_list_all_skip q gvs rs _ (by rw [hq]; exact hgres) hal
        (by intro x hx; simpa [hgcomp] using hgall x hx)
    unfold gh_perform_backup gh_step1 gh_stage2
    rw [hcm]
    simp only [hgres, hgid, hgrepos, hgcomp, hggit, hgdar, hgaws, hgprof,
      Bool.and_self, Bool.true_and, Bool.false_and, Bool.and_true,
      Bool.and_false, Bool.not_true, Bool.not_false, if_true, if_false,
      ite_true, ite_false, Option.isSome_some, Option.getD_some]
    simp only [hgmkb, hgmka, Bool.not_true, Bool.false_and, Bool.and_false,
      if_false, ite_false, Bool.true_and, if_true, ite_true]
    rw [hloop _ rfl (by simp [hgres, hgcomp])]
    refine ⟨rfl, rfl, ?_⟩
    (repeat' split) <;> simp_all [cmds_of]

/-- C2 witness: the theorem applied to a completed S3 job (all three
phases recorded complete) and a completed one-repository GitHub job. -/
theorem c2_idempotent_resume_witness :
    (({ backup_id := some "T0",
        progress := { download_complete := true, archive_complete := true,
                      upload_complete := true } : CheckpointData
      }).progress.download_complete = true ∧
     (∀ r ∈ [{ name := "alpha", clone_url := "https://github.com/o/alpha.git",
               fork := false : Repo }], r.name ∈ ["alpha"])) ∧
    (((s3_perform_backup
        { source_bucket := "src", dest_bucket := "db",
          dest_bucket_base_path := "base", base_local_path := "/tmp" }
        "f" false false false "1G" ({} : S3Env)
        (.content { backup_id := some "T0",
                    progress := { download_complete := true, archive_complete := true,
                                  upload_complete := true } })).ok = true ∧
      cmds_of (s3_perform_backup
        { source_bucket := "src", dest_bucket := "db",
          dest_bucket_base_path := "base", base_local_path := "/tmp" }
        "f" false false false "1G" ({} : S3Env)
        (.content { backup_id := some "T0",
                    progress := { download_complete := true, archive_complete := true,
                                  upload_complete := true } })).events = []) ∧
     ((gh_perform_backup
        { org_name := "o", base_local_path := "/g", s3_bucket := "bkt",
          s3_path := "gp" }
        true true false false "1G" ({} : GHEnv)
        (.content { backup_id := some "T0",
                    repositories := some [{ name := "alpha",
                                            clone_url := "https://github.com/o/alpha.git", fork := false }],
                    completed_repos := some ["alpha"] })).success_count
        = [{ name := "alpha", clone_url := "https://github.com/o/alpha.git",
             fork := false : Repo }].length ∧
      (gh_perform_backup
        { org_name := "o", base_local_path := "/g", s3_bucket := "bkt",
          s3_path := "gp" }
        true true false false "1G" ({} : GHEnv)
        (.content { backup_id := some "T0",
                    repositories := some [{ name := "alpha",
                                            clone_url := "https://github.com/o/alpha.git", fork := false }],
                    completed_repos := some ["alpha"] })).ok
        = decide (0 < [{ name := "alpha", clone_url := "https://github.com/o/alpha.git", fork := false : Repo }].length) ∧
      cmds_of (gh_perform_backup
        { org_name := "o", base_local_path := "/g", s3_bucket := "bkt",
          s3_path := "gp" }
        true true false false "1G" ({} : GHEnv)
        (.content { backup_id := some "T0",
                    repositories := some [{ name := "alpha",
                                            clone_url := "https://github.com/o/alpha.git", fork := false }],
                    completed_repos := some ["alpha"] })).events = [])) :=
  ⟨⟨rfl, by decide⟩,
   c2_idempotent_resume
     { source_bucket := "src", dest_bucket := "db",
       dest_bucket_base_path := "base", base_local_path := "/tmp" }
     "f" false false "1G" ({} : S3Env)
     { backup_id := some "T0",
       progress := { download_complete := true, archive_complete := true,
                     upload_complete := true } }
     { org_name := "o", base_local_path := "/g", s3_bucket := "bkt",
       s3_path := "gp" }
     true true false "1G" ({} : GHEnv)
     { backup_id := some "T0",
       repositories := some [{ name := "alpha", clone_url := "https://github.com/o/alpha.git", fork := false }],
       completed_repos := some ["alpha"] }
     [{ name := "alpha", clone_url := "https://github.com/o/alpha.git",
        fork := false }]
     ["alpha"]
     rfl rfl rfl rfl rfl rfl rfl rfl rfl rfl rfl rfl rfl (by decide) rfl
     (by decide) (by decide) (by decide) (by decide) (by decide)⟩

/-- C4 counterexample: a failed checkpoint write is not job-fatal.  In
this two-repository run every `save` fails (`save_ok = false`), yet
after the first repository's failed save the orchestrator proceeds to
the second repository and reports both as successes; the checkpoint
file is never updated while the in-memory list grows. -/
theorem c4_save_failure_counterexample :
    (gh_perform_backup
      { org_name := "o", base_local_path := "/g", s3_bucket := "bkt", s3_path := "gp" }
      true true false false "1G" { save_ok := false }
      (.content { backup_id := some "T0",
                  repositories := some
                    [{ name := "alpha", clone_url := "https://github.com/o/alpha.git", fork := false },
                     { name := "beta", clone_url := "https://github.com/o/beta.git", fork := false }],
                  completed_repos := some [] })).success_count = 2 ∧
    (gh_perform_backup
      { org_name := "o", base_local_path := "/g", s3_bucket := "bkt", s3_path := "gp" }
      true true false false "1G" { save_ok := false }
      (.content { backup_id := some "T0",
                  repositories := some
                    [{ name := "alpha", clone_url := "https://github.com/o/alpha.git", fork := false },
                     { name := "beta", clone_url := "https://github.com/o/beta.git", fork := false }],
                  completed_repos := some [] })).cm.data.completed_repos
      = some ["alpha", "beta"] ∧
    (gh_perform_backup
      { org_name := "o", base_local_path := "/g", s3_bucket := "bkt", s3_path := "gp" }
      true true false false "1G" { save_ok := false }
      (.content { backup_id := some "T0",
                  repositories := some
                    [{ name := "alpha", clone_url := "https://github.com/o/alpha.git", fork := false },
                     { name := "beta", clone_url := "https://github.com/o/beta.git", fork := false }],
                  completed_repos := some [] })).cm.file
      = .content { backup_id := some "T0",
                   repositories := some
                     [{ name := "alpha", clone_url := "https://github.com/o/alpha.git", fork := false },
                      { name := "beta", clone_url := "https://github.com/o/beta.git", fork := false }],
                   completed_repos := some [] } := by
  refine ⟨by decide, by decide, by decide⟩

/-- The loop parameters with the checkpoint-write success forced. -/
def with_save (p : GHParams) (bk : Bool) : GHParams :=
  { p with env := { p.env with save_ok := bk } }

/-- One loop iteration is blind to checkpoint-write success: with the
same in-memory data, the events, result and resulting data are the
same whatever `save_ok` is; only the file can differ. -/
theorem gh_process_one_save_indep (p : GHParams) (bk : Bool) (r : Repo)
    (vs : String) (cm1 cm2 : CMState) (hd : cm1.data = cm2.data) :
    (gh_process_one (with_save p bk) r vs cm1).1 = (gh_process_one p r vs cm2).1 ∧
    (gh_process_one (with_save p bk) r vs cm1).2.1.data
      = (gh_process_one p r vs cm2).2.1.data ∧
    (gh_process_one (with_save p bk) r vs cm1).2.2 = (gh_process_one p r vs cm2).2.2 := by
  have ec : gh_clone_repository (with_save p bk) r = gh_clone_repository p r := rfl
  have ea : gh_arch_step (with_save p bk) r vs = gh_arch_step p r vs := rfl
  have eu : gh_upl_step (with_save p bk) r = gh_upl_step p r := rfl
  have e1 : (with_save p bk).confirm = p.confirm := rfl
  have e2 : (with_save p bk).env.confirm_ok = p.env.confirm_ok := rfl
  have e3 : (with_save p bk).env.save_ok = bk := rfl
  have es : gh_skip (with_save p bk) r cm1 = gh_skip p r cm2 := by
    unfold gh_skip
    dsimp only [with_save]
    rw [hd]
  unfold gh_process_one
  rw [es, ec, ea, eu, e1, e2, e3]
  repeat' split
  all_goals simp [gh_push_completed, hd]

theorem gh_process_list_save_indep (p : GHParams) (bk : Bool) (vs : String) :
    ∀ (l : List Repo) (cm1 cm2 : CMState), cm1.data = cm2.data →
      (gh_process_list (with_save p bk) vs l cm1).1 = (gh_process_list p vs l cm2).1 ∧
      (gh_process_list (with_save p bk) vs l cm1).2.1.data
        = (gh_process_list p vs l cm2).2.1.data ∧
      (gh_process_list (with_save p bk) vs l cm1).2.2
        = (gh_process_list p vs l cm2).2.2 := by
  intro l
  induction l with
  | nil => intro cm1 cm2 hd; simpa using hd
  | cons r rest ih =>
    intro cm1 cm2 hd
    obtain ⟨h1, h2, h3⟩ := gh_process_one_save_indep p bk r vs cm1 cm2 hd
    obtain ⟨g1, g2, g3⟩ := ih (gh_process_one (with_save p bk) r vs cm1).2.1
      (gh_process_one p r vs cm2).2.1 h2
    rw [gh_process_list_cons, gh_process_list_cons]
    exact ⟨by rw [h1, g1], by rw [g2], by rw [h3, g3]⟩

/-- With failing checkpoint writes the checkpoint file is never
advanced by the loop. -/
theorem gh_process_list_no_save (p : GHParams) (vs : String)
    (hsave : p.env.save_ok = false) :
    ∀ (l : List Repo) (cm : CMState),
      (gh_process_list p vs l cm).2.1.file = cm.file := by
  intro l
  induction l with
  | nil => intro cm; rfl
  | cons r rest ih =>
    intro cm
    have hone : (gh_process_one p r vs cm).2.1.file = cm.file := by
      unfold gh_process_one
      repeat' split
      all_goals simp [hsave, gh_push_completed]
    rw [gh_process_list_cons, ih, hone]

/-- C4 (amended): a failed checkpoint write is reported
(`CheckpointManager.save` returns False and leaves everything
unchanged), but the GitHub orchestrator ignores the result: the
repository loop behaves identically — same events, same success count —
whether every save fails or every save succeeds; after a failed save it
proceeds to further phases and items, and only the on-disk checkpoint
file differs (it is never advanced when writes fail). -/
theorem c4_save_failure_ignored (p : GHParams) (vs : String) (l : List Repo)
    (cm : CMState) (s : CMState) (hsave : p.env.save_ok = false) :
    cm_save false s = (false, s) ∧
    (gh_process_list p vs l cm).2.1.file = cm.file ∧
    (gh_process_list (with_save p true) vs l cm).1 = (gh_process_list p vs l cm).1 ∧
    (gh_process_list (with_save p true) vs l cm).2.2
      = (gh_process_list p vs l cm).2.2 := by
  obtain ⟨h1, _, h3⟩ := gh_process_list_save_indep p true vs l cm cm rfl
  exact ⟨rfl, gh_process_list_no_save p vs hsave l cm, h1, h3⟩

/-- C4 witness: the amended theorem on a concrete two-repository loop
whose saves all fail. -/
theorem c4_save_failure_ignored_witness :
    (({ save_ok := false : GHEnv }).save_ok = false) ∧
    (cm_save false { data := { backup_id := some "T0" }, file := .absent, auto_save := true }
      = (false, { data := { backup_id := some "T0" }, file := .absent, auto_save := true }) ∧
     (gh_process_list
        ⟨{ org_name := "o", base_local_path := "/g", s3_bucket := "bkt", s3_path := "gp" },
         { save_ok := false }, true, true, false, true,
         "/g/o/T0/repositories", "/g/o/T0/archives", "s3://bkt/gp/T0"⟩
        "1G"
        [{ name := "alpha", clone_url := "https://github.com/o/alpha.git", fork := false },
         { name := "beta", clone_url := "https://github.com/o/beta.git", fork := false }]
        { data := { backup_id := some "T0", completed_repos := some [] },
          file := .content { backup_id := some "T0", completed_repos := some [] },
          auto_save := true }).2.1.file
      = ({ data := { backup_id := some "T0", completed_repos := some [] },
           file := .content { backup_id := some "T0", completed_repos := some [] },
           auto_save := true : CMState }).file ∧
     (gh_process_list
        (with_save
          ⟨{ org_name := "o", base_local_path := "/g", s3_bucket := "bkt", s3_path := "gp" },
           { save_ok := false }, true, true, false, true,
           "/g/o/T0/repositories", "/g/o/T0/archives", "s3://bkt/gp/T0"⟩ true)
        "1G"
        [{ name := "alpha", clone_url := "https://github.com/o/alpha.git", fork := false },
         { name := "beta", clone_url := "https://github.com/o/beta.git", fork := false }]
        { data := { backup_id := some "T0", completed_repos := some [] },
          file := .content { backup_id := some "T0", completed_repos := some [] },
          auto_save := true }).1
      = (gh_process_list
        ⟨{ org_name := "o", base_local_path := "/g", s3_bucket := "bkt", s3_path := "gp" },
         { save_ok := false }, true, true, false, true,
         "/g/o/T0/repositories", "/g/o/T0/archives", "s3://bkt/gp/T0"⟩
        "1G"
        [{ name := "alpha", clone_url := "https://github.com/o/alpha.git", fork := false },
         { name := "beta", clone_url := "https://github.com/o/beta.git", fork := false }]
        { data := { backup_id := some "T0", completed_repos := some [] },
          file := .content { backup_id := some "T0", completed_repos := some [] },
          auto_save := true }).1 ∧
     (gh_process_list
        (with_save
          ⟨{ org_name := "o", base_local_path := "/g", s3_bucket := "bkt", s3_path := "gp" },
           { save_ok := false }, true, true, false, true,
           "/g/o/T0/repositories", "/g/o/T0/archives", "s3://bkt/gp/T0"⟩ true)
        "1G"
        [{ name := "alpha", clone_url := "https://github.com/o/alpha.git", fork := false },
         { name := "beta", clone_url := "https://github.com/o/beta.git", fork := false }]
        { data := { backup_id := some "T0", completed_repos := some [] },
          file := .content { backup_id := some "T0", completed_repos := some [] },
          auto_save := true }).2.2
      = (gh_process_list
        ⟨{ org_name := "o", base_local_path := "/g", s3_bucket := "bkt", s3_path := "gp" },
         { save_ok := false }, true, true, false, true,
         "/g/o/T0/repositories", "/g/o/T0/archives", "s3://bkt/gp/T0"⟩
        "1G"
        [{ name := "alpha", clone_url := "https://github.com/o/alpha.git", fork := false },
         { name := "beta", clone_url := "https://github.com/o/beta.git", fork := false }]
        { data := { backup_id := some "T0", completed_repos := some [] },
          file := .content { backup_id := some "T0", completed_repos := some [] },
          auto_save := true }).2.2) :=
  ⟨rfl,
   c4_save_failure_ignored
     ⟨{ org_name := "o", base_local_path := "/g", s3_bucket := "bkt", s3_path := "gp" },
      { save_ok := false }, true, true, false, true,
      "/g/o/T0/repositories", "/g/o/T0/archives", "s3://bkt/gp/T0"⟩
     "1G"
     [{ name := "alpha", clone_url := "https://github.com/o/alpha.git", fork := false },
      { name := "beta", clone_url := "https://github.com/o/beta.git", fork := false }]
     { data := { backup_id := some "T0", completed_repos := some [] },
       file := .content { backup_id := some "T0", completed_repos := some [] },
       auto_save := true }
     { data := { backup_id := some "T0" }, file := .absent, auto_save := true }
     rfl⟩

/-- C10 witness: the theorem applied to a resumed run whose checkpoint
records extraction complete; the dar extraction command is attempted
anyway. -/
theorem c10_extraction_never_skipped_witness :
    ([ "arc.1.dar", "arc.2.dar" ].filter (py_endswith · ".1.dar")
        = ["arc.1.dar"]) ∧
    (unpack_extraction_guard true
        { download_complete := true, extraction_complete := some true } = false ∧
      Event.cmd ["dar", "-x",
          "/dl" ++ "/" ++ "sb" ++ "/" ++ "sp" ++ "/" ++ py_dropRight "arc.1.dar" 6,
          "-R", "/dest", "-v"]
        ∈ (unpack_perform
            { destination_folder := "/dest", source_bucket := "sb",
              source_path := "sp", base_download_path := "/dl" }
            false false { listdir := ["arc.1.dar", "arc.2.dar"] }
            (.content { backup_id := some "T0",
                        progress := { download_complete := true,
                                      extraction_complete := some true } })).events) :=
  ⟨by decide,
   c10_extraction_never_skipped true
     { download_complete := true, extraction_complete := some true }
     { destination_folder := "/dest", source_bucket := "sb",
       source_path := "sp", base_download_path := "/dl" }
     { listdir := ["arc.1.dar", "arc.2.dar"] }
     { backup_id := some "T0",
       progress := { download_complete := true, extraction_complete := some true } }
     "arc.1.dar" [] false rfl (by decide) rfl rfl rfl rfl rfl (by decide)⟩

/-- C9 counterexample: declining the confirmation of one side-effecting
step does not merely skip that step.  In this concrete
`S3Backup.perform_backup` run with `confirm` on and `cleanup`
requested, the user declines only the download confirmation (answering
yes to everything else): the code aborts the entire job (returns
False), and nothing after the staging directory creation runs — in
particular the independent cleanup steps, whose confirmations would
have been accepted, are never reached. -/
theorem c9_decline_counterexample :
    (s3_perform_backup
      { source_bucket := "src", dest_bucket := "bucket-new",
        dest_bucket_base_path := "base", base_local_path := "/tmp" }
      "f" false true true "1G"
      { confirm_ok := fun s => if s = "download data from source S3" then false else true }
      (.content { backup_id := some "T0", timestamp := some "T0" })).ok = false ∧
    (s3_perform_backup
      { source_bucket := "src", dest_bucket := "bucket-new",
        dest_bucket_base_path := "base", base_local_path := "/tmp" }
      "f" false true true "1G"
      { confirm_ok := fun s => if s = "download data from source S3" then false else true }
      (.content { backup_id := some "T0", timestamp := some "T0" })).events =
      [.mkdirp "/tmp/default/src/f"] := by
  refine ⟨by decide, by decide⟩

/-- C9 (amended): declining a confirmation does not in general skip
only that step.  In `S3Backup.perform_backup`, declining the download
confirmation aborts the entire job: the run returns False immediately,
and its only side effect is the staging directory creation — no later
step runs, not even independent ones such as the requested cleanup,
whose confirmations would have been accepted. -/
theorem c9_decline_download_aborts (b : S3Backup) (folder : String)
    (use_delete cleanup : Bool) (volume_size : String) (env : S3Env)
    (file0 : FileState)
    (haws : env.aws_cli_present = true)
    (hsp : check_profile env.source_profile_ok b.source_profile = true)
    (hdp : check_profile env.dest_profile_ok b.dest_profile = true)
    (hc1 : env.confirm_ok "create local staging directory" = true)
    (hmk : env.mk_staging_ok = true)
    (hdl : (cm_new file0 true).data.progress.download_complete = false)
    (hdecl : env.confirm_ok "download data from source S3" = false) :
    (s3_perform_backup b folder use_delete cleanup true volume_size env file0).ok
        = false ∧
    (s3_perform_backup b folder use_delete cleanup true volume_size env file0).events
        = [.mkdirp (s3_staging_dir b folder)] := by
  unfold s3_perform_backup
  simp [haws, hsp, hdp, hc1, hmk, hdecl, ite_download_false, hdl,
    init_checkpoint_data]

/-- C9 witness: the amended theorem at the counterexample's input. -/
theorem c9_decline_download_aborts_witness :
    (({ confirm_ok := fun s => if s = "download data from source S3" then false
        else true : S3Env }).confirm_ok "download data from source S3" = false) ∧
    ((s3_perform_backup
        { source_bucket := "src", dest_bucket := "bucket-new",
          dest_bucket_base_path := "base", base_local_path := "/tmp" }
        "f" false true true "1G"
        { confirm_ok := fun s => if s = "download data from source S3" then false
          else true }
        (.content { backup_id := some "T0", timestamp := some "T0" })).ok = false ∧
      (s3_perform_backup
        { source_bucket := "src", dest_bucket := "bucket-new",
          dest_bucket_base_path := "base", base_local_path := "/tmp" }
        "f" false true true "1G"
        { confirm_ok := fun s => if s = "download data from source S3" then false
          else true }
        (.content { backup_id := some "T0", timestamp := some "T0" })).events =
        [.mkdirp (s3_staging_dir
          { source_bucket := "src", dest_bucket := "bucket-new",
            dest_bucket_base_path := "base", base_local_path := "/tmp" } "f")]) :=
  ⟨by decide,
   c9_decline_download_aborts
     { source_bucket := "src", dest_bucket := "bucket-new",
       dest_bucket_base_path := "base", base_local_path := "/tmp" }
     "f" false true "1G"
     { confirm_ok := fun s => if s = "download data from source S3" then false
       else true }
     (.content { backup_id := some "T0", timestamp := some "T0" })
     rfl rfl rfl (by decide) rfl rfl (by decide)⟩

/-- C1: contrary to the specified behavior, neither orchestrator calls
`CheckpointManager.validate_config`: a resumed run whose loaded
checkpoint stores a configuration that differs on a
resumption-relevant field (here `dest_bucket`) is resumed silently.  At
this input the mismatch is real (`validate_config` is false), yet
`S3Backup.perform_backup` reports success and executes all three
phases (download, dar, upload) instead of failing before any phase. -/
theorem c1_silent_resume_on_config_mismatch :
    validate_config
      (s3_config_dict { source_bucket := "src", dest_bucket := "bucket-old",
                        dest_bucket_base_path := "base", base_local_path := "/tmp" }
        "f" false false "1G")
      (s3_config_dict { source_bucket := "src", dest_bucket := "bucket-new",
                        dest_bucket_base_path := "base", base_local_path := "/tmp" }
        "f" false false "1G") = false ∧
    (s3_perform_backup
      { source_bucket := "src", dest_bucket := "bucket-new",
        dest_bucket_base_path := "base", base_local_path := "/tmp" }
      "f" false false false "1G" ({} : S3Env)
      (.content { backup_id := some "T0", timestamp := some "T0",
                  config := s3_config_dict { source_bucket := "src", dest_bucket := "bucket-old", dest_bucket_base_path := "base", base_local_path := "/tmp" } "f" false false "1G" })).ok = true ∧
    cmds_of (s3_perform_backup
      { source_bucket := "src", dest_bucket := "bucket-new",
        dest_bucket_base_path := "base", base_local_path := "/tmp" }
      "f" false false false "1G" ({} : S3Env)
      (.content { backup_id := some "T0", timestamp := some "T0",
                  config := s3_config_dict { source_bucket := "src", dest_bucket := "bucket-old", dest_bucket_base_path := "base", base_local_path := "/tmp" } "f" false false "1G" })).events =
      [["aws", "s3", "sync", "s3://src/f/", "/tmp/default/src/f"],
       ["dar", "-w", "-s", "1G", "-c", "/tmp/src_f_T0/f_T0", "-R", "/tmp/default/src/f"],
       ["aws", "s3", "sync", "/tmp/src_f_T0", "s3://bucket-new/base/f/T0/",
        "--storage-class", "DEEP_ARCHIVE"]] := by
  refine ⟨by decide, by decide, by decide⟩

end Backup
